import Mathlib

/-!
Shallow embedding of the `usrv-card-control` retry-quota / block state machine.

The Go services (`service/block_service.go`, `service/restore_service.go`,
the status service and the DynamoDB builders in `gateway/dynamo_builders.go`)
are translated into pure Lean functions.  DynamoDB is modelled as an explicit
`Store` value holding the two tables (blocked cards and retry counters) as
association lists; each `time.Now()` call of the Go code consumes one sample
from an explicit clock stream (`List Int`), and every conditional update is
applied through an explicit apply function that checks the same condition the
builder attaches to the DynamoDB expression.
-/

namespace CardControl

/-- ASCII case folding of one character, the byte-level core of Go's
`strings.EqualFold` for the ASCII constants this service compares against. -/
def foldChar (c : Char) : Char :=
  if 'A' ≤ c ∧ c ≤ 'Z' then Char.ofNat (c.toNat + 32) else c

/-- Model of Go `strings.EqualFold` restricted to ASCII folding. -/
def equalFold (a b : String) : Bool :=
  a.data.map foldChar == b.data.map foldChar

/- Constants from `constants.go`. -/

def BlockCardOperation : String := "block"
def RetryCardOperation : String := "retry"
def DailyFrequency : String := "daily"
def MonthlyFrequency : String := "monthly"
def PERMANENT : String := "PERMANENT"
def TEMPORARY : String := "TEMPORARY"

/-- Modelled from the spec: the brand constants `core.BrandVisa` and
`core.BrandMasterCard` live in the external `usrv-go-core` module, which is not
part of this repository; the spec's command envelope fixes the brand strings to
`"VISA" | "MASTERCARD"`. -/
def BrandVisa : String := "VISA"

/-- Modelled from the spec: see `BrandVisa`. -/
def BrandMasterCard : String := "MASTERCARD"

/-- `constants.Frequencies` — Go map lookup with exact keys; a missing
franchise yields the nil slice. -/
def Frequencies (franchise : String) : List String :=
  if franchise = BrandVisa then [MonthlyFrequency]
  else if franchise = BrandMasterCard then [DailyFrequency, MonthlyFrequency]
  else []

/-- `constants.Limits` — nested Go map lookup; missing keys yield 0. -/
def Limits (franchise frequency : String) : Nat :=
  if franchise = BrandVisa then
    (if frequency = MonthlyFrequency then 15 else 0)
  else if franchise = BrandMasterCard then
    (if frequency = MonthlyFrequency then 35
     else if frequency = DailyFrequency then 7 else 0)
  else 0

/- Data model from `types/` -/

/-- `types.BlockCardRequest`. -/
structure BlockCardRequest where
  merchantIdentifier : String
  franchise : String
  operation : String
  cardID : String
  processor : String
  conditional : String
deriving Repr, DecidableEq

/-- `types.BlockedMerchant`.  The `dynamodbav` tags are `omitempty`; an
attribute absent from the stored map unmarshals back to the Go zero value, so
absent attributes are modelled by the zero values `0` and `""`. -/
structure BlockedMerchant where
  expirationDate : Int
  blockType : String
  lastRetry : Int
deriving Repr, DecidableEq

/-- `types.DynamoBlockedCard`; `blockedMerchants` is an association list
standing for the Go map. -/
structure DynamoBlockedCard where
  cardID : String
  timeStamp : Int
  blockedMerchants : List (String × BlockedMerchant)
deriving Repr, DecidableEq

/-- `types.CardRetry`. -/
structure CardRetry where
  cardID : String
  merchantID : String
  retryKey : String
  retries : List Int
  timeStamp : Int
deriving Repr, DecidableEq

/-- `types.CheckCardStatusResponse`. -/
structure CheckCardStatusResponse where
  blockType : String
  blocked : Bool
  hasRetries : Bool
deriving Repr, DecidableEq

/-- `types.RestoreDailyRequest`. -/
structure RestoreDailyRequest where
  cardID : String
  merchantID : String
deriving Repr, DecidableEq

/- Association-list primitives standing for keyed DynamoDB access. -/

/-- Lookup by key in an association list (a DynamoDB `GetItem`). -/
def lookupStr {β : Type} (k : String) : List (String × β) → Option β
  | [] => none
  | (k', v) :: rest => if k' = k then some v else lookupStr k rest

/-- Replace-or-append by key (a DynamoDB keyed write). -/
def insertStr {β : Type} (k : String) (v : β) : List (String × β) → List (String × β)
  | [] => [(k, v)]
  | (k', v') :: rest => if k' = k then (k, v) :: rest else (k', v') :: insertStr k v rest

/-- The two DynamoDB tables (`DYNAMO_BLOCKED_CARD`, `DYNAMO_CARD_RETRY`). -/
structure Store where
  blockedCards : List (String × DynamoBlockedCard)
  cardRetries : List (String × CardRetry)
deriving Repr, DecidableEq

/- Key & window calculus from `block_service.go`. -/

/-- `generateCustomID` in `block_service.go`. -/
def generateCustomID (request : BlockCardRequest) (frequency : String) : String :=
  if equalFold request.franchise BrandMasterCard then
    request.merchantIdentifier ++ "-" ++ frequency
  else
    request.merchantIdentifier ++ "-" ++ request.conditional ++ "-" ++ frequency

/-- `generateRetryKey` in `block_service.go`. -/
def generateRetryKey (request : BlockCardRequest) (frequency : String) : String :=
  request.cardID ++ "-" ++ generateCustomID request frequency

/-- `getValidRetries` in `block_service.go`: start from `[currentDate]` and
append the old timestamps strictly newer than the window cutoff, in order. -/
def getValidRetries (currentDate : Int) (oldRetries : List Int) (frequency : String) : List Int :=
  let oneDayMiliSeconds : Int := 24 * 60 * 60 * 1000
  let oneMonthMiliSeconds : Int := oneDayMiliSeconds * 30
  let dateLimit : Int :=
    if equalFold frequency DailyFrequency then currentDate - oneDayMiliSeconds
    else currentDate - oneMonthMiliSeconds
  currentDate :: oldRetries.filter (fun retry => dateLimit < retry)

/- DynamoDB write requests built by `gateway/dynamo_builders.go`.  Each
builder is a pure function of its Go arguments plus the clock samples the Go
builder takes with `time.Now()`; the `apply` functions below give the
DynamoDB semantics of the produced expression. -/

/-- The content of the `UpdateItemBuilder`s that `Set` the whole
`blockedMerchants.{merchantID}` path to a fresh `BlockedMerchant` value and
bump `timeStamp`, conditioned on `timeStamp = expectedVersion`. -/
structure MerchantEntryUpdate where
  cardID : String
  merchantID : String
  newEntry : BlockedMerchant
  newVersion : Int
  expectedVersion : Int
deriving Repr, DecidableEq

/-- `gateway.UpdateLastRetryBuilder`: sets `blockedMerchants.{merchantID}` to
`BlockedMerchant{LastRetry: currentDate}` (the other attributes are zero
values and `omitempty`, so the stored entry keeps nothing else), sets
`timeStamp` to a fresh `time.Now()` sample, and conditions on the observed
`blockedCard.TimeStamp`. -/
def UpdateLastRetryBuilder (newVersion currentDate : Int) (merchantID : String)
    (blockedCard : DynamoBlockedCard) : MerchantEntryUpdate :=
  { cardID := blockedCard.cardID
    merchantID := merchantID
    newEntry := { expirationDate := 0, blockType := "", lastRetry := currentDate }
    newVersion := newVersion
    expectedVersion := blockedCard.timeStamp }

/-- `gateway.generateBlockUpdate` + `gateway.UpdateBlockCardBuilder`:
sets `blockedMerchants.{merchantID}` to a fresh entry whose `blockType` is
`PERMANENT` for the block operation and `TEMPORARY` otherwise and whose
`expirationDate` is `time.Now()+24h` (its own clock sample `expSample`);
`lastRetry` is the zero value.  `timeStamp` is set to a second fresh sample
`newVersion`, conditioned on the observed `blockedCard.TimeStamp`. -/
def UpdateBlockCardBuilder (expSample newVersion : Int) (request : BlockCardRequest)
    (blockedCard : DynamoBlockedCard) : MerchantEntryUpdate :=
  { cardID := request.cardID
    merchantID := request.merchantIdentifier
    newEntry :=
      { expirationDate := expSample + 86400000
        blockType :=
          if equalFold request.operation BlockCardOperation then PERMANENT else TEMPORARY
        lastRetry := 0 }
    newVersion := newVersion
    expectedVersion := blockedCard.timeStamp }

/-- DynamoDB semantics of a `MerchantEntryUpdate`: the conditional update
succeeds only on an existing item whose stored `timeStamp` equals the expected
version; it then replaces the merchant's map entry wholesale and writes the
new version.  `none` is a precondition failure. -/
def applyMerchantEntryUpdate (s : Store) (u : MerchantEntryUpdate) : Option Store :=
  match lookupStr u.cardID s.blockedCards with
  | none => none
  | some card =>
    if card.timeStamp = u.expectedVersion then
      let card' : DynamoBlockedCard :=
        { card with
          timeStamp := u.newVersion
          blockedMerchants := insertStr u.merchantID u.newEntry card.blockedMerchants }
      some { s with blockedCards := insertStr u.cardID card' s.blockedCards }
    else none

/-- The content of the upsert built by `gateway.IncrementRetryBuilder`:
sets `retries` and a fresh `timeStamp`, sets `cardID`/`merchantID` only
`if_not_exists`, conditioned on `timeStamp = expectedVersion OR
attribute_not_exists(timeStamp)`. -/
structure RetryUpsert where
  key : String
  retries : List Int
  cardID : String
  merchantID : String
  newVersion : Int
  expectedVersion : Int
deriving Repr, DecidableEq

/-- `gateway.IncrementRetryBuilder`. -/
def IncrementRetryBuilder (newVersion : Int) (retries : List Int)
    (request : BlockCardRequest) (key : String) (cardRetry : CardRetry) : RetryUpsert :=
  { key := key
    retries := retries
    cardID := request.cardID
    merchantID := request.merchantIdentifier
    newVersion := newVersion
    expectedVersion := cardRetry.timeStamp }

/-- DynamoDB semantics of a `RetryUpsert`: an absent item satisfies
`attribute_not_exists(timeStamp)` and is created (`if_not_exists` populates
`cardID`/`merchantID`); an existing item requires the version match and keeps
its `cardID`/`merchantID`. -/
def applyRetryUpsert (s : Store) (u : RetryUpsert) : Option Store :=
  match lookupStr u.key s.cardRetries with
  | none =>
    let newRow : CardRetry :=
      { cardID := u.cardID, merchantID := u.merchantID, retryKey := u.key,
        retries := u.retries, timeStamp := u.newVersion }
    some { s with cardRetries := insertStr u.key newRow s.cardRetries }
  | some row =>
    if row.timeStamp = u.expectedVersion then
      let row' : CardRetry := { row with retries := u.retries, timeStamp := u.newVersion }
      some { s with cardRetries := insertStr u.key row' s.cardRetries }
    else none

/- Dynamo read results and errors. -/

/-- The storage error kinds the services distinguish. -/
inductive DynErr where
  | itemNotFound
  | conflict
  | preconditionFailed
  | otherFailure
deriving Repr, DecidableEq

/-- Decidable equality on `Except`, for evaluating the interpreter at
concrete inputs. -/
instance exceptDecEq {ε α : Type} [DecidableEq ε] [DecidableEq α] :
    DecidableEq (Except ε α) := fun a b =>
  match a, b with
  | .error e, .error e' =>
    if h : e = e' then .isTrue (by rw [h]) else .isFalse (fun hh => by cases hh; exact h rfl)
  | .ok v, .ok v' =>
    if h : v = v' then .isTrue (by rw [h]) else .isFalse (fun hh => by cases hh; exact h rfl)
  | .error _, .ok _ => .isFalse (fun hh => by cases hh)
  | .ok _, .error _ => .isFalse (fun hh => by cases hh)

/-- `GetBlockedCard` (`GetItem` on the blocked-card table). -/
def getBlockedCard (s : Store) (cardID : String) : Except DynErr DynamoBlockedCard :=
  match lookupStr cardID s.blockedCards with
  | none => .error .itemNotFound
  | some card => .ok card

/- The Retry & Block Engine (`service/block_service.go`). -/

/-- One clock sample: `time.Now().UTC().UnixMilli()` consumes the head of the
clock stream. -/
def sampleClock (clock : List Int) : Int × List Int :=
  (clock.headD 0, clock.tail)

/-- `BlockService.processRetry` + `incrementRetry` + `getRetry` for one
frequency: read the counter (NotFound yields the zero `CardRetry`), prune and
prepend with `getValidRetries`, upsert, and report whether the pruned list
reached the franchise limit. -/
def processRetry (clock : List Int) (s : Store) (request : BlockCardRequest)
    (frequency : String) (currentDate : Int) :
    Except DynErr (Bool × Store × List Int) :=
  let key := generateRetryKey request frequency
  let retry : CardRetry :=
    (lookupStr key s.cardRetries).getD
      { cardID := "", merchantID := "", retryKey := "", retries := [], timeStamp := 0 }
  let retries := getValidRetries currentDate retry.retries frequency
  let (newVersion, clock') := sampleClock clock
  match applyRetryUpsert s (IncrementRetryBuilder newVersion retries request key retry) with
  | none => .error .preconditionFailed
  | some s' => .ok (decide (Limits request.franchise frequency ≤ retries.length), s', clock')

/-- The `for _, frequency := range frequencies` loop of `ProcessBlock`,
collecting the `blockedMap` entries in order. -/
def processFrequencies (clock : List Int) (s : Store) (request : BlockCardRequest)
    (currentDate : Int) : List String → Except DynErr (List (String × Bool) × Store × List Int)
  | [] => .ok ([], s, clock)
  | f :: rest =>
    match processRetry clock s request f currentDate with
    | .error e => .error e
    | .ok (b, s', clock') =>
      match processFrequencies clock' s' request currentDate rest with
      | .error e => .error e
      | .ok (marks, s'', clock'') => .ok ((f, b) :: marks, s'', clock'')

/-- `getBlocked` in `block_service.go`: any frequency marked blocked. -/
def getBlocked (marks : List (String × Bool)) : Bool :=
  marks.any (fun p => p.2)

/-- `BlockService.blockCard`: build `UpdateBlockCardBuilder` (which samples the
clock twice: expiration first, then the new version) and apply it. -/
def blockCard (clock : List Int) (s : Store) (request : BlockCardRequest)
    (blockedCard : DynamoBlockedCard) : Except DynErr (Store × List Int) :=
  let (expSample, clock1) := sampleClock clock
  let (newVersion, clock2) := sampleClock clock1
  match applyMerchantEntryUpdate s (UpdateBlockCardBuilder expSample newVersion request blockedCard) with
  | none => .error .preconditionFailed
  | some s' => .ok (s', clock2)

/-- `BlockService.updateLastRetry`. -/
def updateLastRetry (clock : List Int) (s : Store) (merchantID : String)
    (currentDate : Int) (blockedCard : DynamoBlockedCard) : Except DynErr (Store × List Int) :=
  let (newVersion, clock1) := sampleClock clock
  match applyMerchantEntryUpdate s (UpdateLastRetryBuilder newVersion currentDate merchantID blockedCard) with
  | none => .error .preconditionFailed
  | some s' => .ok (s', clock1)

/-- `ProcessBlock` after the blocked card was loaded or created: direct block
for the block operation, otherwise sample `currentDate` once, walk the
franchise's frequencies, then block on overflow, stop for Visa, or record
`lastRetry` (the MasterCard tail).  The returned list is the `blockedMap`. -/
def processBlockLoaded (clock : List Int) (s : Store) (request : BlockCardRequest)
    (blockedCard : DynamoBlockedCard) : Except DynErr (Store × List (String × Bool)) :=
  if equalFold request.operation BlockCardOperation then
    match blockCard clock s request blockedCard with
    | .error e => .error e
    | .ok (s', _) => .ok (s', [])
  else
    let (currentDate, clock1) := sampleClock clock
    match processFrequencies clock1 s request currentDate (Frequencies request.franchise) with
    | .error e => .error e
    | .ok (marks, s', clock') =>
      if getBlocked marks then
        match blockCard clock' s' request blockedCard with
        | .error e => .error e
        | .ok (s'', _) => .ok (s'', marks)
      else if equalFold request.franchise BrandVisa then .ok (s', marks)
      else
        match updateLastRetry clock' s' request.merchantIdentifier currentDate blockedCard with
        | .error e => .error e
        | .ok (s'', _) => .ok (s'', marks)

/-- `BlockService.ProcessBlock`.  `putResult` is the outcome the storage layer
returns for the `PutBlockedCard` creation (the put builder carries no
condition of its own in this repository; the spec's storage contract allows
`ok | conflict`, so the outcome is a parameter).  An empty `cardID` returns
success before any storage access. -/
def processBlock (putResult : Except DynErr Unit) (clock : List Int) (s : Store)
    (request : BlockCardRequest) : Except DynErr (Store × List (String × Bool)) :=
  if request.cardID = "" then .ok (s, [])
  else
    match lookupStr request.cardID s.blockedCards with
    | some card => processBlockLoaded clock s request card
    | none =>
      let (ts, clock1) := sampleClock clock
      let fresh : DynamoBlockedCard :=
        { cardID := request.cardID, timeStamp := ts, blockedMerchants := [] }
      match putResult with
      | .error e => .error e
      | .ok _ =>
        processBlockLoaded clock1
          { s with blockedCards := insertStr request.cardID fresh s.blockedCards }
          request fresh

/- The Status Evaluator (`CheckCardStatusService.CheckCardStatus`). -/

/-- The zero `CheckCardStatusResponse`. -/
def zeroStatus : CheckCardStatusResponse :=
  { blockType := "", blocked := false, hasRetries := false }

/-- `CheckCardStatus` after the empty-cardID guard, as a function of the
storage read outcome: any read error is fail-open, a missing merchant entry is
the zero value, a case-insensitive `PERMANENT` short-circuits, and otherwise
the temporary-block and `hasRetries` predicates are evaluated at `now`. -/
def checkCardStatusCore (now : Int) (merchantIdentifier : String)
    (loadResult : Except DynErr DynamoBlockedCard) : CheckCardStatusResponse :=
  match loadResult with
  | .error _ => zeroStatus
  | .ok blockedCardInfo =>
    match lookupStr merchantIdentifier blockedCardInfo.blockedMerchants with
    | none => zeroStatus
    | some lockInfo =>
      if equalFold lockInfo.blockType PERMANENT then
        { blockType := PERMANENT, blocked := true, hasRetries := false }
      else
        let isTemporarilyBlocked := decide (now < lockInfo.expirationDate)
        let lastRetry := lockInfo.lastRetry + 86400000
        let hasRetries := decide (now < lastRetry)
        { blockType := if isTemporarilyBlocked then TEMPORARY else ""
          blocked := isTemporarilyBlocked
          hasRetries := hasRetries }

/-- `CheckCardStatusService.CheckCardStatus` against the store. -/
def CheckCardStatus (now : Int) (s : Store) (cardID merchantIdentifier : String) :
    CheckCardStatusResponse :=
  if cardID = "" then zeroStatus
  else checkCardStatusCore now merchantIdentifier (getBlockedCard s cardID)

/- The Restore Pipeline (`service/restore_service.go`). -/

/-- Substring test used to model the DynamoDB `Contains(retryKey, "daily")`
filter expression. -/
def hasInfix (needle : List Char) : List Char → Bool
  | [] => needle == []
  | c :: rest => needle.isPrefixOf (c :: rest) || hasInfix needle rest

/-- The `Query` of `gateway.QueryRetriesBuilder`: rows on the
`(cardID, merchantID)` index filtered to retry keys containing `"daily"`. -/
def queryDailyRetries (s : Store) (cardID merchantID : String) : List CardRetry :=
  (s.cardRetries.filter (fun p =>
    p.2.cardID == cardID && p.2.merchantID == merchantID &&
      hasInfix DailyFrequency.data p.2.retryKey.data)).map (fun p => p.2)

/-- `DeleteItem` by retry key. -/
def deleteRetryKey (key : String) (rows : List (String × CardRetry)) :
    List (String × CardRetry) :=
  rows.filter (fun p => p.1 != key)

/-- `RestoreService.cleanDailyRetries`: query, then delete each returned row
by its retry key. -/
def cleanDailyRetries (s : Store) (request : RestoreDailyRequest) : Store :=
  let victims := queryDailyRetries s request.cardID request.merchantID
  { s with cardRetries :=
      victims.foldl (fun acc row => deleteRetryKey row.retryKey acc) s.cardRetries }

/-- `RestoreService.cleanLastRetry`: load the blocked card (NotFound is an
error) and apply `UpdateLastRetryBuilder` with `lastRetry = 0`. -/
def cleanLastRetry (clock : List Int) (s : Store) (request : RestoreDailyRequest) :
    Except DynErr Store :=
  match lookupStr request.cardID s.blockedCards with
  | none => .error .itemNotFound
  | some blockedCard =>
    let (newVersion, _) := sampleClock clock
    match applyMerchantEntryUpdate s
        (UpdateLastRetryBuilder newVersion 0 request.merchantID blockedCard) with
    | none => .error .preconditionFailed
    | some s' => .ok s'

/-- `RestoreService.RestoreDailyRetries`: no empty-cardID guard exists on this
path; the daily counters are deleted and then `cleanLastRetry` runs. -/
def RestoreDailyRetries (clock : List Int) (s : Store) (request : RestoreDailyRequest) :
    Except DynErr Store :=
  cleanLastRetry clock (cleanDailyRetries s request) request

/- Helper definitions used to state closed forms of the interpreter. -/

/-- The retry list currently stored under a key (empty for an absent row),
the list `getValidRetries` prunes. -/
def storedRetries (s : Store) (key : String) : List Int :=
  match lookupStr key s.cardRetries with
  | none => []
  | some row => row.retries

/-- Closed form of the store after the retry upsert of one frequency. -/
def upsertedStore (s : Store) (request : BlockCardRequest) (key : String)
    (retries : List Int) (nv : Int) : Store :=
  match lookupStr key s.cardRetries with
  | none =>
    let newRow : CardRetry :=
      { cardID := request.cardID, merchantID := request.merchantIdentifier, retryKey := key,
        retries := retries, timeStamp := nv }
    { s with cardRetries := insertStr key newRow s.cardRetries }
  | some row =>
    { s with cardRetries := insertStr key { row with retries := retries, timeStamp := nv } s.cardRetries }

/-- A request has no dash in a component: the precondition under which the
composed retry key is unambiguous. -/
def dashFree (s : String) : Prop := ('-' : Char) ∉ s.data

instance dashFreeDec (s : String) : Decidable (dashFree s) :=
  inferInstanceAs (Decidable (('-' : Char) ∉ s.data))

/-- The `blockedMap` of a successful `ProcessBlock` run. -/
def resultMarks (res : Except DynErr (Store × List (String × Bool))) :
    Option (List (String × Bool)) :=
  match res with
  | .error _ => none
  | .ok (_, marks) => some marks

/-- The merchant entry stored for `(cardID, merchantID)` after a successful
`ProcessBlock` run. -/
def resultEntry (res : Except DynErr (Store × List (String × Bool)))
    (cardID merchantID : String) : Option BlockedMerchant :=
  match res with
  | .error _ => none
  | .ok (s', _) =>
    match lookupStr cardID s'.blockedCards with
    | none => none
    | some card => lookupStr merchantID card.blockedMerchants

/-- The retry list stored under a key after a successful `ProcessBlock`
run. -/
def resultRetrieves (res : Except DynErr (Store × List (String × Bool)))
    (key : String) : Option (List Int) :=
  match res with
  | .error _ => none
  | .ok (s', _) => (lookupStr key s'.cardRetries).map (fun r => r.retries)

/- Theorems. -/

theorem equalFold_refl (a : String) : equalFold a a = true := by
  simp [equalFold]

theorem equalFold_ne_of_false {a b : String} (h : equalFold a b = false) : a ≠ b := by
  intro e
  rw [e, equalFold_refl] at h
  cases h

theorem lookupStr_insert_self {β : Type} (k : String) (v : β) (l : List (String × β)) :
    lookupStr k (insertStr k v l) = some v := by
  induction l with
  | nil => simp [insertStr, lookupStr]
  | cons p rest ih =>
    by_cases h : p.1 = k
    · simp [insertStr, lookupStr, h]
    · simp [insertStr, lookupStr, h, ih]

theorem lookupStr_insert_ne {β : Type} (k k' : String) (v : β) (l : List (String × β))
    (h : k' ≠ k) : lookupStr k (insertStr k' v l) = lookupStr k l := by
  induction l with
  | nil => simp [insertStr, lookupStr, h]
  | cons p rest ih =>
    by_cases hp : p.1 = k'
    · simp [insertStr, lookupStr, hp, h]
    · have hkk : k ≠ k' := fun e => h e.symm
      by_cases hk : p.1 = k
      · simp [insertStr, lookupStr, hp, hk, hkk]
      · simp [insertStr, lookupStr, hp, hk, ih]

theorem processRetry_eq (clock : List Int) (s : Store) (request : BlockCardRequest)
    (frequency : String) (currentDate : Int) :
    processRetry clock s request frequency currentDate =
      .ok (decide (Limits request.franchise frequency ≤
              (getValidRetries currentDate
                (storedRetries s (generateRetryKey request frequency)) frequency).length),
           upsertedStore s request (generateRetryKey request frequency)
             (getValidRetries currentDate
               (storedRetries s (generateRetryKey request frequency)) frequency)
             (clock.headD 0),
           clock.tail) := by
  cases hk : lookupStr (generateRetryKey request frequency) s.cardRetries with
  | none =>
    simp [processRetry, applyRetryUpsert, IncrementRetryBuilder, upsertedStore, storedRetries,
      sampleClock, hk]
  | some row =>
    simp [processRetry, applyRetryUpsert, IncrementRetryBuilder, upsertedStore, storedRetries,
      sampleClock, hk]

theorem upsertedStore_blockedCards (s : Store) (request : BlockCardRequest) (key : String)
    (retries : List Int) (nv : Int) :
    (upsertedStore s request key retries nv).blockedCards = s.blockedCards := by
  unfold upsertedStore
  cases lookupStr key s.cardRetries <;> rfl

theorem upsertedStore_lookup_retries (s : Store) (request : BlockCardRequest) (key : String)
    (retries : List Int) (nv : Int) :
    (lookupStr key (upsertedStore s request key retries nv).cardRetries).map
      (fun r => r.retries) = some retries := by
  unfold upsertedStore
  cases lookupStr key s.cardRetries <;> simp [lookupStr_insert_self]

theorem upsertedStore_lookup_timeStamp (s : Store) (request : BlockCardRequest) (key : String)
    (retries : List Int) (nv : Int) :
    (lookupStr key (upsertedStore s request key retries nv).cardRetries).map
      (fun r => r.timeStamp) = some nv := by
  unfold upsertedStore
  cases lookupStr key s.cardRetries <;> simp [lookupStr_insert_self]

theorem upsertedStore_lookup_ne (s : Store) (request : BlockCardRequest) (key key' : String)
    (retries : List Int) (nv : Int) (h : key ≠ key') :
    lookupStr key' (upsertedStore s request key retries nv).cardRetries =
      lookupStr key' s.cardRetries := by
  unfold upsertedStore
  cases lookupStr key s.cardRetries <;> simp [lookupStr_insert_ne _ _ _ _ h]

/-- C4: for every current time, prior retry list and frequency, the pruned
list is `now` prepended to exactly the prior timestamps strictly inside the
window (`86_400_000` ms daily, `86_400_000 × 30` ms monthly); a timestamp
exactly `retention_ms` old is dropped, and `now` is always the head. -/
theorem c4_sliding_window (now : Int) (old : List Int) :
    getValidRetries now old DailyFrequency =
      now :: old.filter (fun t => now - 86400000 < t)
    ∧ getValidRetries now old MonthlyFrequency =
      now :: old.filter (fun t => now - 2592000000 < t)
    ∧ (getValidRetries now old DailyFrequency).head? = some now
    ∧ (getValidRetries now old MonthlyFrequency).head? = some now
    ∧ (now - 86400000) ∉ getValidRetries now old DailyFrequency
    ∧ (now - 2592000000) ∉ getValidRetries now old MonthlyFrequency := by
  have hd : equalFold DailyFrequency DailyFrequency = true := equalFold_refl _
  have hm : equalFold MonthlyFrequency DailyFrequency = false := by decide
  refine ⟨?_, ?_, ?_, ?_, ?_, ?_⟩
  · norm_num [getValidRetries, hd]
  · norm_num [getValidRetries, hm]
  · norm_num [getValidRetries, hd]
  · norm_num [getValidRetries, hm]
  · norm_num [getValidRetries, hd, List.mem_filter]
  · norm_num [getValidRetries, hm, List.mem_filter]

/-- C5: the status evaluator returns the zero value on empty cardID, on a
storage read error, and on a missing merchant entry; a case-insensitive
`PERMANENT` entry returns `{blocked:true, blockType:PERMANENT,
hasRetries:false}` regardless of its other fields; otherwise `blocked`
is `expirationDate > now`, `blockType` is `TEMPORARY` exactly when blocked,
and `hasRetries` is `lastRetry + 86_400_000 > now`, independent of
`blocked`. -/
theorem c5_status_eval (now : Int) (s : Store) (cardID merchantID : String) :
    (cardID = "" → CheckCardStatus now s cardID merchantID = zeroStatus)
    ∧ (∀ e : DynErr, checkCardStatusCore now merchantID (.error e) = zeroStatus)
    ∧ (lookupStr cardID s.blockedCards = none →
        CheckCardStatus now s cardID merchantID = zeroStatus)
    ∧ (∀ card, cardID ≠ "" → lookupStr cardID s.blockedCards = some card →
        lookupStr merchantID card.blockedMerchants = none →
        CheckCardStatus now s cardID merchantID = zeroStatus)
    ∧ (∀ card entry, cardID ≠ "" → lookupStr cardID s.blockedCards = some card →
        lookupStr merchantID card.blockedMerchants = some entry →
        equalFold entry.blockType PERMANENT = true →
        CheckCardStatus now s cardID merchantID = ⟨PERMANENT, true, false⟩)
    ∧ (∀ card entry, cardID ≠ "" → lookupStr cardID s.blockedCards = some card →
        lookupStr merchantID card.blockedMerchants = some entry →
        equalFold entry.blockType PERMANENT = false →
        CheckCardStatus now s cardID merchantID =
          ⟨if now < entry.expirationDate then TEMPORARY else "",
           decide (now < entry.expirationDate),
           decide (now < entry.lastRetry + 86400000)⟩) := by
  refine ⟨?_, ?_, ?_, ?_, ?_, ?_⟩
  · intro h
    simp [CheckCardStatus, h]
  · intro e
    simp [checkCardStatusCore]
  · intro h
    by_cases hc : cardID = ""
    · simp [CheckCardStatus, hc]
    · simp [CheckCardStatus, hc, checkCardStatusCore, getBlockedCard, h]
  · intro card hc hcard hm
    simp [CheckCardStatus, hc, checkCardStatusCore, getBlockedCard, hcard, hm]
  · intro card entry hc hcard hm hperm
    simp [CheckCardStatus, hc, checkCardStatusCore, getBlockedCard, hcard, hm, hperm]
  · intro card entry hc hcard hm hperm
    simp [CheckCardStatus, hc, checkCardStatusCore, getBlockedCard, hcard, hm, hperm]

/-- Concrete status fixture: expired temporary block, recent retry. -/
def c5Card : DynamoBlockedCard := ⟨"C5", 0, [("M5", ⟨900, "", 500⟩)]⟩

/-- Store holding `c5Card`. -/
def c5Store : Store := ⟨[("C5", c5Card)], []⟩

/-- Witness for `c5_status_eval` at a concrete input: an expired temporary
block with a retry 500 ms ago evaluates to `{blocked:false, blockType:"",
hasRetries:true}` at `now = 1000`. -/
theorem c5_status_eval_witness :
    ("C5" : String) ≠ ""
    ∧ lookupStr "C5" c5Store.blockedCards = some c5Card
    ∧ lookupStr "M5" c5Card.blockedMerchants = some ⟨900, "", 500⟩
    ∧ equalFold "" PERMANENT = false
    ∧ CheckCardStatus 1000 c5Store "C5" "M5" = ⟨"", false, true⟩ := by
  have h := (c5_status_eval 1000 c5Store "C5" "M5").2.2.2.2.2 c5Card ⟨900, "", 500⟩
    (by decide) rfl rfl (by decide)
  exact ⟨by decide, rfl, rfl, by decide, by rw [h]; decide⟩

/-- Prior merchant entry with a permanent block, for the C1 counterexample. -/
def c1PriorEntry : BlockedMerchant := ⟨555, PERMANENT, 3⟩

/-- Blocked card holding `c1PriorEntry`. -/
def c1Card : DynamoBlockedCard := ⟨"C1", 10, [("M1", c1PriorEntry)]⟩

/-- Store holding `c1Card`. -/
def c1Store : Store := ⟨[("C1", c1Card)], []⟩

/-- C1 counterexample: the `lastRetry` write built by `UpdateLastRetryBuilder`
does NOT preserve `blockType` and `expirationDate` — it replaces the whole
merchant entry, so a prior `{expirationDate:555, blockType:PERMANENT,
lastRetry:3}` becomes `{expirationDate:0, blockType:"", lastRetry:40}`. -/
theorem c1_counterexample :
    applyMerchantEntryUpdate c1Store (UpdateLastRetryBuilder 20 40 "M1" c1Card)
      = some ⟨[("C1", ⟨"C1", 20, [("M1", ⟨0, "", 40⟩)]⟩)], []⟩
    ∧ c1PriorEntry.blockType = PERMANENT
    ∧ (BlockedMerchant.mk 0 "" 40).blockType ≠ c1PriorEntry.blockType
    ∧ (BlockedMerchant.mk 0 "" 40).expirationDate ≠ c1PriorEntry.expirationDate := by
  decide

/-- C1 amended: the `lastRetry` write (retry: `lastRetry = now`; restore:
`lastRetry = 0`) replaces `blockedMerchants[merchantID]` wholesale with
`{expirationDate:0, blockType:"", lastRetry:currentDate}` and bumps the
record's `timeStamp` to the builder's fresh version, under the version guard;
entries of other merchants, other cards and the retry table are unchanged. -/
theorem c1_last_retry_write (nv cd : Int) (m : String) (bc card : DynamoBlockedCard)
    (s : Store) (hcard : lookupStr bc.cardID s.blockedCards = some card)
    (hver : card.timeStamp = bc.timeStamp) :
    ∃ card' s',
      applyMerchantEntryUpdate s (UpdateLastRetryBuilder nv cd m bc) = some s'
      ∧ lookupStr bc.cardID s'.blockedCards = some card'
      ∧ lookupStr m card'.blockedMerchants = some ⟨0, "", cd⟩
      ∧ card'.timeStamp = nv
      ∧ (∀ m', m' ≠ m → lookupStr m' card'.blockedMerchants = lookupStr m' card.blockedMerchants)
      ∧ (∀ c', c' ≠ bc.cardID → lookupStr c' s'.blockedCards = lookupStr c' s.blockedCards)
      ∧ s'.cardRetries = s.cardRetries := by
  have hupd : applyMerchantEntryUpdate s (UpdateLastRetryBuilder nv cd m bc) =
      some { s with blockedCards := insertStr bc.cardID { card with timeStamp := nv, blockedMerchants := insertStr m ⟨0, "", cd⟩ card.blockedMerchants } s.blockedCards } := by
    simp [applyMerchantEntryUpdate, UpdateLastRetryBuilder, hcard, hver]
  refine ⟨_, _, hupd, lookupStr_insert_self _ _ _, lookupStr_insert_self _ _ _, rfl, ?_, ?_, rfl⟩
  · intro m' hm'
    exact lookupStr_insert_ne _ _ _ _ (fun e => hm' e.symm)
  · intro c' hc'
    exact lookupStr_insert_ne _ _ _ _ (fun e => hc' e.symm)

/-- Witness for `c1_last_retry_write` at a concrete input. -/
theorem c1_last_retry_write_witness :
    lookupStr c1Card.cardID c1Store.blockedCards = some c1Card
    ∧ c1Card.timeStamp = c1Card.timeStamp
    ∧ ∃ card' s',
        applyMerchantEntryUpdate c1Store (UpdateLastRetryBuilder 20 40 "M1" c1Card) = some s'
        ∧ lookupStr c1Card.cardID s'.blockedCards = some card'
        ∧ lookupStr "M1" card'.blockedMerchants = some ⟨0, "", 40⟩
        ∧ card'.timeStamp = 20
        ∧ (∀ m', m' ≠ "M1" →
            lookupStr m' card'.blockedMerchants = lookupStr m' c1Card.blockedMerchants)
        ∧ (∀ c', c' ≠ c1Card.cardID →
            lookupStr c' s'.blockedCards = lookupStr c' c1Store.blockedCards)
        ∧ s'.cardRetries = c1Store.cardRetries :=
  ⟨rfl, rfl, c1_last_retry_write 20 40 "M1" c1Card c1Card c1Store rfl rfl⟩

/-- Prior merchant entry with a recorded retry, for the C2 counterexample. -/
def c2Prior : BlockedMerchant := ⟨5, "", 7⟩

/-- Blocked card holding `c2Prior`. -/
def c2Card : DynamoBlockedCard := ⟨"C2", 50, [("M2", c2Prior)]⟩

/-- Store holding `c2Card`. -/
def c2Store : Store := ⟨[("C2", c2Card)], []⟩

/-- Direct block request for the C2 counterexample. -/
def c2Req : BlockCardRequest := ⟨"M2", "VISA", "block", "C2", "", ""⟩

/-- C2 counterexample: the block write does NOT leave `lastRetry` unchanged —
the merchant entry is replaced wholesale, so a prior `lastRetry = 7` becomes
`0`. -/
theorem c2_counterexample :
    applyMerchantEntryUpdate c2Store (UpdateBlockCardBuilder 1000 2000 c2Req c2Card)
      = some ⟨[("C2", ⟨"C2", 2000, [("M2", ⟨86401000, PERMANENT, 0⟩)]⟩)], []⟩
    ∧ c2Prior.lastRetry = 7
    ∧ (BlockedMerchant.mk 86401000 PERMANENT 0).lastRetry ≠ c2Prior.lastRetry := by
  decide

/-- C2 amended: a block command replaces `blockedMerchants[merchantID]` with
`{blockType:PERMANENT, expirationDate:sample+24h, lastRetry:0}` (resetting
`lastRetry` to the zero value) and bumps `timeStamp`, guarded on the observed
BlockedCard version: a version mismatch makes the update fail. -/
theorem c2_block_write (expSample nv : Int) (request : BlockCardRequest)
    (bc card : DynamoBlockedCard) (s : Store)
    (hop : equalFold request.operation BlockCardOperation = true)
    (hcard : lookupStr request.cardID s.blockedCards = some card) :
    (card.timeStamp = bc.timeStamp →
      ∃ card' s',
        applyMerchantEntryUpdate s (UpdateBlockCardBuilder expSample nv request bc) = some s'
        ∧ lookupStr request.cardID s'.blockedCards = some card'
        ∧ lookupStr request.merchantIdentifier card'.blockedMerchants
            = some ⟨expSample + 86400000, PERMANENT, 0⟩
        ∧ card'.timeStamp = nv
        ∧ s'.cardRetries = s.cardRetries)
    ∧ (card.timeStamp ≠ bc.timeStamp →
        applyMerchantEntryUpdate s (UpdateBlockCardBuilder expSample nv request bc) = none) := by
  constructor
  · intro hver
    have hupd : applyMerchantEntryUpdate s (UpdateBlockCardBuilder expSample nv request bc) =
        some { s with blockedCards := insertStr request.cardID { card with timeStamp := nv, blockedMerchants := insertStr request.merchantIdentifier ⟨expSample + 86400000, PERMANENT, 0⟩ card.blockedMerchants } s.blockedCards } := by
      simp [applyMerchantEntryUpdate, UpdateBlockCardBuilder, hcard, hver, hop]
    exact ⟨_, _, hupd, lookupStr_insert_self _ _ _, lookupStr_insert_self _ _ _, rfl, rfl⟩
  · intro hver
    simp [applyMerchantEntryUpdate, UpdateBlockCardBuilder, hcard, hver]

/-- Witness for `c2_block_write` at a concrete input. -/
theorem c2_block_write_witness :
    equalFold c2Req.operation BlockCardOperation = true
    ∧ lookupStr c2Req.cardID c2Store.blockedCards = some c2Card
    ∧ c2Card.timeStamp = c2Card.timeStamp
    ∧ ∃ card' s',
        applyMerchantEntryUpdate c2Store (UpdateBlockCardBuilder 1000 2000 c2Req c2Card)
          = some s'
        ∧ lookupStr c2Req.cardID s'.blockedCards = some card'
        ∧ lookupStr c2Req.merchantIdentifier card'.blockedMerchants
            = some ⟨1000 + 86400000, PERMANENT, 0⟩
        ∧ card'.timeStamp = 2000
        ∧ s'.cardRetries = c2Store.cardRetries :=
  ⟨by decide, rfl, rfl,
    (c2_block_write 1000 2000 c2Req c2Card c2Card c2Store (by decide) rfl).1 rfl⟩

/-- C6 counterexample: the restore pipeline has no empty-cardID guard.  With
`cardID = ""` and no stored record it FAILS with NotFound instead of
returning success, and with a stored record under the empty key it MUTATES
storage (deleting nothing but rewriting `lastRetry` and `timeStamp`). -/
theorem c6_counterexample :
    RestoreDailyRetries [0] ⟨[], []⟩ ⟨"", "M6"⟩ = .error DynErr.itemNotFound
    ∧ RestoreDailyRetries [9] ⟨[("", ⟨"", 0, []⟩)], []⟩ ⟨"", "M6"⟩
        = .ok ⟨[("", ⟨"", 9, [("M6", ⟨0, "", 0⟩)]⟩)], []⟩
    ∧ (⟨[("", ⟨"", 9, [("M6", ⟨0, "", 0⟩)]⟩)], []⟩ : Store)
        ≠ ⟨[("", ⟨"", 0, []⟩)], []⟩ := by
  decide

/-- C6 amended: the empty-cardID no-op holds for the retry/block engine —
`ProcessBlock` with `cardID = ""` returns success (for any operation, clock,
put outcome and store) with the store unchanged; the restore pipeline carries
no such guard. -/
theorem c6_empty_card_noop (putResult : Except DynErr Unit) (clock : List Int)
    (s : Store) (request : BlockCardRequest) (h : request.cardID = "") :
    processBlock putResult clock s request = .ok (s, []) := by
  simp [processBlock, h]

/-- Witness for `c6_empty_card_noop` at a concrete input. -/
theorem c6_empty_card_noop_witness :
    (BlockCardRequest.mk "M6" "MASTERCARD" "retry" "" "" "").cardID = ""
    ∧ processBlock (.ok ()) [1, 2] ⟨[], []⟩ ⟨"M6", "MASTERCARD", "retry", "", "", ""⟩
        = .ok (⟨[], []⟩, []) :=
  ⟨rfl, c6_empty_card_noop (.ok ()) [1, 2] ⟨[], []⟩ ⟨"M6", "MASTERCARD", "retry", "", "", ""⟩ rfl⟩

/-- Retry request used by the C7 theorems. -/
def c7Req : BlockCardRequest := ⟨"M7", "VISA", "retry", "C7", "", ""⟩

/-- C7 counterexample: when the creation of the fresh BlockedCard returns a
conflict, `ProcessBlock` FAILS the command with that error — it does not
reload the existing record and continue. -/
theorem c7_counterexample :
    processBlock (.error .conflict) [5] ⟨[], []⟩ c7Req = .error DynErr.conflict := by
  decide

/-- C7 amended: on NotFound the engine builds the fresh record
`{cardID, timeStamp = now, blockedMerchants = {}}`, stores it, and continues
processing with it; any error from the creation — including a conflict —
fails the command (the transport's redelivery provides the retry). -/
theorem c7_create_on_not_found (clock : List Int) (s : Store)
    (request : BlockCardRequest) (hne : request.cardID ≠ "")
    (habs : lookupStr request.cardID s.blockedCards = none) :
    (processBlock (.ok ()) clock s request =
      processBlockLoaded clock.tail
        { s with blockedCards :=
            insertStr request.cardID ⟨request.cardID, clock.headD 0, []⟩ s.blockedCards }
        request ⟨request.cardID, clock.headD 0, []⟩)
    ∧ (∀ e : DynErr, processBlock (.error e) clock s request = .error e) := by
  constructor
  · simp [processBlock, hne, habs, sampleClock]
  · intro e
    simp [processBlock, hne, habs, sampleClock]

/-- Witness for `c7_create_on_not_found` at a concrete input. -/
theorem c7_create_on_not_found_witness :
    c7Req.cardID ≠ ""
    ∧ lookupStr c7Req.cardID (Store.mk [] []).blockedCards = none
    ∧ (processBlock (.ok ()) [7] ⟨[], []⟩ c7Req =
        processBlockLoaded [] ⟨[("C7", ⟨"C7", 7, []⟩)], []⟩ c7Req ⟨"C7", 7, []⟩)
    ∧ (∀ e : DynErr, processBlock (.error e) [7] ⟨[], []⟩ c7Req = .error e) := by
  have h := c7_create_on_not_found [7] ⟨[], []⟩ c7Req (by decide) rfl
  exact ⟨by decide, rfl, h.1, h.2⟩

theorem string_data_append (a b : String) : (a ++ b).data = a.data ++ b.data := by
  cases a
  cases b
  rfl

theorem string_eq_of_data {a b : String} (h : a.data = b.data) : a = b := by
  cases a
  cases b
  simp at h
  rw [h]

theorem append_dash_cancel : ∀ (x x' y y' : List Char), ('-' : Char) ∉ x →
    ('-' : Char) ∉ x' → x ++ '-' :: y = x' ++ '-' :: y' → x = x' ∧ y = y'
  | [], [], _, _, _, _, h => ⟨rfl, by simpa using h⟩
  | [], c :: t, y, y', _, hx', h => by
    rw [List.nil_append, List.cons_append] at h
    injection h with h1 h2
    subst h1
    simp at hx'
  | c :: t, [], y, y', hx, _, h => by
    rw [List.cons_append, List.nil_append] at h
    injection h with h1 h2
    subst h1
    simp at hx
  | c :: t, c' :: t', y, y', hx, hx', h => by
    rw [List.cons_append, List.cons_append] at h
    injection h with h1 h2
    subst h1
    have hx2 : ('-' : Char) ∉ t := fun m => hx (List.mem_cons_of_mem _ m)
    have hx'2 : ('-' : Char) ∉ t' := fun m => hx' (List.mem_cons_of_mem _ m)
    obtain ⟨e1, e2⟩ := append_dash_cancel t t' y y' hx2 hx'2 h2
    exact ⟨by rw [e1], e2⟩

theorem mc_key_data (r : BlockCardRequest) (f : String)
    (hmc : equalFold r.franchise BrandMasterCard = true) :
    (generateRetryKey r f).data =
      r.cardID.data ++ '-' :: (r.merchantIdentifier.data ++ '-' :: f.data) := by
  have hdash : ("-" : String).data = ['-'] := rfl
  simp [generateRetryKey, generateCustomID, hmc, string_data_append, hdash,
    List.append_assoc, List.singleton_append]

theorem other_key_data (r : BlockCardRequest) (f : String)
    (hmc : equalFold r.franchise BrandMasterCard = false) :
    (generateRetryKey r f).data =
      r.cardID.data ++ '-' :: (r.merchantIdentifier.data ++ '-' ::
        (r.conditional.data ++ '-' :: f.data)) := by
  have hdash : ("-" : String).data = ['-'] := rfl
  simp [generateRetryKey, generateCustomID, hmc, string_data_append, hdash,
    List.append_assoc, List.singleton_append]

/-- First MasterCard request of the colliding pair. -/
def c9ReqA : BlockCardRequest := ⟨"c", "MASTERCARD", "retry", "a-b", "", ""⟩

/-- Second MasterCard request of the colliding pair. -/
def c9ReqB : BlockCardRequest := ⟨"b-c", "MASTERCARD", "retry", "a", "", ""⟩

/-- C9 counterexample: the retry key is NOT injective — the MasterCard tuples
`(cardID "a-b", merchant "c", daily)` and `(cardID "a", merchant "b-c",
daily)` differ but compose to the same key `"a-b-c-daily"`. -/
theorem c9_counterexample :
    generateRetryKey c9ReqA "daily" = generateRetryKey c9ReqB "daily"
    ∧ c9ReqA.cardID ≠ c9ReqB.cardID
    ∧ c9ReqA.merchantIdentifier ≠ c9ReqB.merchantIdentifier := by
  decide

/-- C9 amended: the retry key is injective in its tuple on the inputs whose
components contain no `'-'` character: for MasterCard requests equal keys
force equal `(cardID, merchantID, frequency)`, and for Visa/other requests
with dash-free `conditional` equal keys force equal
`(cardID, merchantID, conditional, frequency)`.  (Components containing a
dash can collide, as the counterexample shows.) -/
theorem c9_retry_key_inj :
    (∀ (r1 r2 : BlockCardRequest) (f1 f2 : String),
      equalFold r1.franchise BrandMasterCard = true →
      equalFold r2.franchise BrandMasterCard = true →
      dashFree r1.cardID → dashFree r2.cardID →
      dashFree r1.merchantIdentifier → dashFree r2.merchantIdentifier →
      generateRetryKey r1 f1 = generateRetryKey r2 f2 →
      r1.cardID = r2.cardID ∧ r1.merchantIdentifier = r2.merchantIdentifier ∧ f1 = f2)
    ∧ (∀ (r1 r2 : BlockCardRequest) (f1 f2 : String),
      equalFold r1.franchise BrandMasterCard = false →
      equalFold r2.franchise BrandMasterCard = false →
      dashFree r1.cardID → dashFree r2.cardID →
      dashFree r1.merchantIdentifier → dashFree r2.merchantIdentifier →
      dashFree r1.conditional → dashFree r2.conditional →
      generateRetryKey r1 f1 = generateRetryKey r2 f2 →
      r1.cardID = r2.cardID ∧ r1.merchantIdentifier = r2.merchantIdentifier
        ∧ r1.conditional = r2.conditional ∧ f1 = f2) := by
  constructor
  · intro r1 r2 f1 f2 h1 h2 hc1 hc2 hm1 hm2 hkey
    have hd := congrArg String.data hkey
    rw [mc_key_data r1 f1 h1, mc_key_data r2 f2 h2] at hd
    obtain ⟨e1, e2⟩ := append_dash_cancel _ _ _ _ hc1 hc2 hd
    obtain ⟨e3, e4⟩ := append_dash_cancel _ _ _ _ hm1 hm2 e2
    exact ⟨string_eq_of_data e1, string_eq_of_data e3, string_eq_of_data e4⟩
  · intro r1 r2 f1 f2 h1 h2 hc1 hc2 hm1 hm2 hq1 hq2 hkey
    have hd := congrArg String.data hkey
    rw [other_key_data r1 f1 h1, other_key_data r2 f2 h2] at hd
    obtain ⟨e1, e2⟩ := append_dash_cancel _ _ _ _ hc1 hc2 hd
    obtain ⟨e3, e4⟩ := append_dash_cancel _ _ _ _ hm1 hm2 e2
    obtain ⟨e5, e6⟩ := append_dash_cancel _ _ _ _ hq1 hq2 e4
    exact ⟨string_eq_of_data e1, string_eq_of_data e3, string_eq_of_data e5,
      string_eq_of_data e6⟩

/-- Witness for `c9_retry_key_inj`: two distinct MasterCard requests sharing
the dash-free tuple `("x", "y", "daily")` have equal keys, and the theorem
recovers the equal components. -/
theorem c9_retry_key_inj_witness :
    equalFold (BlockCardRequest.mk "y" "MASTERCARD" "retry" "x" "" "").franchise
        BrandMasterCard = true
    ∧ dashFree "x" ∧ dashFree "y"
    ∧ generateRetryKey ⟨"y", "MASTERCARD", "retry", "x", "", ""⟩ "daily"
        = generateRetryKey ⟨"y", "MASTERCARD", "block", "x", "p", "q"⟩ "daily"
    ∧ ("x" : String) = "x" ∧ ("y" : String) = "y" ∧ ("daily" : String) = "daily" := by
  have h := c9_retry_key_inj.1 ⟨"y", "MASTERCARD", "retry", "x", "", ""⟩
    ⟨"y", "MASTERCARD", "block", "x", "p", "q"⟩ "daily" "daily"
    (by decide) (by decide) (by decide) (by decide) (by decide) (by decide) (by decide)
  exact ⟨by decide, by decide, by decide, by decide, h.1, h.2.1, h.2.2⟩

theorem updateLastRetry_eq (clock : List Int) (s : Store) (m : String) (cd : Int)
    (card : DynamoBlockedCard) (hcard : lookupStr card.cardID s.blockedCards = some card) :
    updateLastRetry clock s m cd card =
      .ok ({ s with blockedCards := insertStr card.cardID { card with timeStamp := clock.headD 0, blockedMerchants := insertStr m ⟨0, "", cd⟩ card.blockedMerchants } s.blockedCards }, clock.tail) := by
  simp [updateLastRetry, applyMerchantEntryUpdate, UpdateLastRetryBuilder, sampleClock, hcard]

/-- C10: a `RetryOrBlock` command with a non-empty cardID, an operation that
is not a case-insensitive `block`, and a brand that case-insensitively
matches neither Visa nor MasterCard iterates zero frequencies (its
`blockedMap` is empty and the retry table is untouched) yet still takes the
MasterCard tail path, overwriting `blockedMerchants[merchantID]` with an
entry whose only populated field is `lastRetry = now` — for both an existing
and a freshly created BlockedCard. -/
theorem c10_unknown_brand_tail (clock : List Int) (s : Store) (request : BlockCardRequest)
    (hne : request.cardID ≠ "")
    (hop : equalFold request.operation BlockCardOperation = false)
    (hv : equalFold request.franchise BrandVisa = false)
    (hm : equalFold request.franchise BrandMasterCard = false) :
    (∀ card, lookupStr request.cardID s.blockedCards = some card →
      card.cardID = request.cardID →
      ∃ s', processBlock (.ok ()) clock s request = .ok (s', [])
        ∧ s'.cardRetries = s.cardRetries
        ∧ ∃ card', lookupStr request.cardID s'.blockedCards = some card'
            ∧ lookupStr request.merchantIdentifier card'.blockedMerchants
                = some ⟨0, "", clock.headD 0⟩)
    ∧ (lookupStr request.cardID s.blockedCards = none →
      ∃ s', processBlock (.ok ()) clock s request = .ok (s', [])
        ∧ s'.cardRetries = s.cardRetries
        ∧ ∃ card', lookupStr request.cardID s'.blockedCards = some card'
            ∧ lookupStr request.merchantIdentifier card'.blockedMerchants
                = some ⟨0, "", clock.tail.headD 0⟩) := by
  have hv' := equalFold_ne_of_false hv
  have hm' := equalFold_ne_of_false hm
  have hfreq : Frequencies request.franchise = [] := by
    simp [Frequencies, hv', hm']
  constructor
  · intro card hcard hccid
    have hrun : processBlock (.ok ()) clock s request =
        .ok ({ s with blockedCards := insertStr card.cardID { card with timeStamp := clock.tail.headD 0, blockedMerchants := insertStr request.merchantIdentifier ⟨0, "", clock.headD 0⟩ card.blockedMerchants } s.blockedCards }, []) := by
      simp [processBlock, hne, hcard, processBlockLoaded, hop, sampleClock, hfreq,
        processFrequencies, getBlocked, hv, updateLastRetry, applyMerchantEntryUpdate,
        UpdateLastRetryBuilder, hccid]
    exact ⟨_, hrun, rfl,
      ⟨{ card with timeStamp := clock.tail.headD 0, blockedMerchants := insertStr request.merchantIdentifier ⟨0, "", clock.headD 0⟩ card.blockedMerchants },
        by rw [← hccid]; exact lookupStr_insert_self _ _ _,
        lookupStr_insert_self _ _ _⟩⟩
  · intro hcard
    have hrun : processBlock (.ok ()) clock s request =
        .ok ({ s with blockedCards := insertStr request.cardID ⟨request.cardID, clock.tail.tail.headD 0, insertStr request.merchantIdentifier ⟨0, "", clock.tail.headD 0⟩ []⟩ (insertStr request.cardID ⟨request.cardID, clock.headD 0, []⟩ s.blockedCards) }, []) := by
      simp [processBlock, hne, hcard, processBlockLoaded, hop, sampleClock, hfreq,
        processFrequencies, getBlocked, hv, updateLastRetry, applyMerchantEntryUpdate,
        UpdateLastRetryBuilder, lookupStr_insert_self]
    exact ⟨_, hrun, rfl,
      ⟨⟨request.cardID, clock.tail.tail.headD 0, insertStr request.merchantIdentifier ⟨0, "", clock.tail.headD 0⟩ []⟩,
        lookupStr_insert_self _ _ _,
        lookupStr_insert_self _ _ _⟩⟩

/-- Concrete request with an unrecognized brand for the C10 witness. -/
def c10Req : BlockCardRequest := ⟨"M10", "", "retry", "C10", "", ""⟩

/-- Witness for `c10_unknown_brand_tail` at a concrete input (empty brand,
existing card). -/
theorem c10_unknown_brand_tail_witness :
    c10Req.cardID ≠ ""
    ∧ equalFold c10Req.operation BlockCardOperation = false
    ∧ equalFold c10Req.franchise BrandVisa = false
    ∧ equalFold c10Req.franchise BrandMasterCard = false
    ∧ lookupStr c10Req.cardID (Store.mk [("C10", ⟨"C10", 3, []⟩)] []).blockedCards
        = some ⟨"C10", 3, []⟩
    ∧ (DynamoBlockedCard.mk "C10" 3 []).cardID = c10Req.cardID
    ∧ ∃ s', processBlock (.ok ()) [77, 88] ⟨[("C10", ⟨"C10", 3, []⟩)], []⟩ c10Req
          = .ok (s', [])
        ∧ s'.cardRetries = (Store.mk [("C10", ⟨"C10", 3, []⟩)] []).cardRetries
        ∧ ∃ card', lookupStr c10Req.cardID s'.blockedCards = some card'
            ∧ lookupStr c10Req.merchantIdentifier card'.blockedMerchants
                = some ⟨0, "", (77 : Int)⟩ := by
  have h := (c10_unknown_brand_tail [77, 88] ⟨[("C10", ⟨"C10", 3, []⟩)], []⟩ c10Req
    (by decide) (by decide) (by decide) (by decide)).1 ⟨"C10", 3, []⟩ rfl rfl
  exact ⟨by decide, by decide, by decide, by decide, rfl, rfl, h⟩

theorem storedRetries_upserted_self (s : Store) (request : BlockCardRequest) (k : String)
    (rt : List Int) (nv : Int) : storedRetries (upsertedStore s request k rt nv) k = rt := by
  unfold storedRetries upsertedStore
  cases lookupStr k s.cardRetries <;> simp [lookupStr_insert_self]

theorem storedRetries_upserted_ne (s : Store) (request : BlockCardRequest) (k k' : String)
    (rt : List Int) (nv : Int) (h : k ≠ k') :
    storedRetries (upsertedStore s request k rt nv) k' = storedRetries s k' := by
  unfold storedRetries
  rw [upsertedStore_lookup_ne _ _ _ _ _ _ h]

theorem daily_monthly_key_ne (request : BlockCardRequest) :
    generateRetryKey request DailyFrequency ≠ generateRetryKey request MonthlyFrequency := by
  intro h
  have hd := congrArg String.data h
  have h5 : (DailyFrequency.data).length = 5 := rfl
  have h7 : (MonthlyFrequency.data).length = 7 := rfl
  cases hb : equalFold request.franchise BrandMasterCard with
  | false =>
    rw [other_key_data request DailyFrequency hb, other_key_data request MonthlyFrequency hb] at hd
    have hl := congrArg List.length hd
    simp [h5, h7] at hl
  | true =>
    rw [mc_key_data request DailyFrequency hb, mc_key_data request MonthlyFrequency hb] at hd
    have hl := congrArg List.length hd
    simp [h5, h7] at hl

/-- Full characterization of a MasterCard retry command against an existing
BlockedCard: one `currentDate` sample drives both frequencies' pruning and
prepending; each upsert and the final merchant write take their own fresh
clock samples. -/
theorem mc_retry_run (clock : List Int) (s : Store) (request : BlockCardRequest)
    (card : DynamoBlockedCard)
    (hne : request.cardID ≠ "")
    (hop : equalFold request.operation BlockCardOperation = false)
    (hfr : request.franchise = BrandMasterCard)
    (hcard : lookupStr request.cardID s.blockedCards = some card)
    (hccid : card.cardID = request.cardID) :
    processBlock (.ok ()) clock s request =
      (if 7 ≤ (getValidRetries (clock.headD 0) (storedRetries s (generateRetryKey request DailyFrequency)) DailyFrequency).length
          ∨ 35 ≤ (getValidRetries (clock.headD 0) (storedRetries s (generateRetryKey request MonthlyFrequency)) MonthlyFrequency).length
       then
        .ok ({ upsertedStore (upsertedStore s request (generateRetryKey request DailyFrequency) (getValidRetries (clock.headD 0) (storedRetries s (generateRetryKey request DailyFrequency)) DailyFrequency) (clock.tail.headD 0)) request (generateRetryKey request MonthlyFrequency) (getValidRetries (clock.headD 0) (storedRetries s (generateRetryKey request MonthlyFrequency)) MonthlyFrequency) (clock.tail.tail.headD 0) with
            blockedCards := insertStr request.cardID { card with timeStamp := clock.tail.tail.tail.tail.headD 0, blockedMerchants := insertStr request.merchantIdentifier ⟨clock.tail.tail.tail.headD 0 + 86400000, TEMPORARY, 0⟩ card.blockedMerchants } s.blockedCards },
          [(DailyFrequency, decide (7 ≤ (getValidRetries (clock.headD 0) (storedRetries s (generateRetryKey request DailyFrequency)) DailyFrequency).length)),
           (MonthlyFrequency, decide (35 ≤ (getValidRetries (clock.headD 0) (storedRetries s (generateRetryKey request MonthlyFrequency)) MonthlyFrequency).length))])
       else
        .ok ({ upsertedStore (upsertedStore s request (generateRetryKey request DailyFrequency) (getValidRetries (clock.headD 0) (storedRetries s (generateRetryKey request DailyFrequency)) DailyFrequency) (clock.tail.headD 0)) request (generateRetryKey request MonthlyFrequency) (getValidRetries (clock.headD 0) (storedRetries s (generateRetryKey request MonthlyFrequency)) MonthlyFrequency) (clock.tail.tail.headD 0) with
            blockedCards := insertStr card.cardID { card with timeStamp := clock.tail.tail.tail.headD 0, blockedMerchants := insertStr request.merchantIdentifier ⟨0, "", clock.headD 0⟩ card.blockedMerchants } s.blockedCards },
          [(DailyFrequency, decide (7 ≤ (getValidRetries (clock.headD 0) (storedRetries s (generateRetryKey request DailyFrequency)) DailyFrequency).length)),
           (MonthlyFrequency, decide (35 ≤ (getValidRetries (clock.headD 0) (storedRetries s (generateRetryKey request MonthlyFrequency)) MonthlyFrequency).length))])) := by
  have hkne := daily_monthly_key_ne request
  have hfreq : Frequencies request.franchise = [DailyFrequency, MonthlyFrequency] := by
    rw [hfr]
    decide
  have hvfold : equalFold request.franchise BrandVisa = false := by
    rw [hfr]
    decide
  have hL7 : Limits request.franchise DailyFrequency = 7 := by
    rw [hfr]
    decide
  have hL35 : Limits request.franchise MonthlyFrequency = 35 := by
    rw [hfr]
    decide
  simp only [processBlock, hne, if_neg, hcard, processBlockLoaded, hop, Bool.false_eq_true,
    sampleClock, hfreq, processFrequencies, processRetry_eq, hL7, hL35, getBlocked,
    storedRetries_upserted_ne, hkne, ne_eq, not_false_iff, List.any_cons, List.any_nil,
    Bool.or_false, Bool.or_eq_true, decide_eq_true_eq]
  split
  · simp [blockCard, sampleClock, applyMerchantEntryUpdate, UpdateBlockCardBuilder,
      upsertedStore_blockedCards, hcard, hop]
  · simp [hvfold, updateLastRetry, sampleClock, applyMerchantEntryUpdate,
      UpdateLastRetryBuilder, hccid, upsertedStore_blockedCards, hcard]

/-- MasterCard retry request for the C8 theorems. -/
def c8Req : BlockCardRequest := ⟨"M1", "MASTERCARD", "retry", "C8", "", ""⟩

/-- Store holding only the blocked-card row for `c8Req`. -/
def c8Store : Store := ⟨[("C8", ⟨"C8", 0, []⟩)], []⟩

/-- C8 counterexample: `now` is NOT a single per-command sample.  Running a
MasterCard retry with the clock stream `[100, 200, 300, 400]` (one value per
`time.Now()` call), the retry event timestamp recorded in both counters is
the first sample `100`, but the version `timeStamp`s written by the daily
upsert, the monthly upsert and the lastRetry update are the later samples
`200`, `300` and `400` — sub-operations take fresh wall-clock samples. -/
theorem c8_counterexample :
    processBlock (.ok ()) [100, 200, 300, 400] c8Store c8Req
      = .ok (⟨[("C8", ⟨"C8", 400, [("M1", ⟨0, "", 100⟩)]⟩)],
              [("C8-M1-daily", ⟨"C8", "M1", "C8-M1-daily", [100], 200⟩),
               ("C8-M1-monthly", ⟨"C8", "M1", "C8-M1-monthly", [100], 300⟩)]⟩,
             [("daily", false), ("monthly", false)])
    ∧ (200 : Int) ≠ 100 ∧ (300 : Int) ≠ 100 ∧ (400 : Int) ≠ 100 := by
  decide

/-- C8 amended: what IS shared is the retry event sample — `currentDate` is
sampled once before the frequency loop, and both the daily and the monthly
counter receive that same sample as the prepended event timestamp, with
their window cutoffs derived from it; version `timeStamp`s and the block
expiration are separate fresh samples (see the counterexample). -/
theorem c8_shared_event_sample (clock : List Int) (s : Store) (request : BlockCardRequest)
    (card : DynamoBlockedCard)
    (hne : request.cardID ≠ "")
    (hop : equalFold request.operation BlockCardOperation = false)
    (hfr : request.franchise = BrandMasterCard)
    (hcard : lookupStr request.cardID s.blockedCards = some card)
    (hccid : card.cardID = request.cardID) :
    resultRetrieves (processBlock (.ok ()) clock s request)
        (generateRetryKey request DailyFrequency)
      = some (getValidRetries (clock.headD 0)
          (storedRetries s (generateRetryKey request DailyFrequency)) DailyFrequency)
    ∧ resultRetrieves (processBlock (.ok ()) clock s request)
        (generateRetryKey request MonthlyFrequency)
      = some (getValidRetries (clock.headD 0)
          (storedRetries s (generateRetryKey request MonthlyFrequency)) MonthlyFrequency)
    ∧ (getValidRetries (clock.headD 0)
        (storedRetries s (generateRetryKey request DailyFrequency)) DailyFrequency).head?
      = some (clock.headD 0)
    ∧ (getValidRetries (clock.headD 0)
        (storedRetries s (generateRetryKey request MonthlyFrequency)) MonthlyFrequency).head?
      = some (clock.headD 0) := by
  have hkne := daily_monthly_key_ne request
  have hkne' : generateRetryKey request MonthlyFrequency ≠ generateRetryKey request DailyFrequency :=
    fun e => hkne e.symm
  rw [mc_retry_run clock s request card hne hop hfr hcard hccid]
  split
  · exact ⟨by simp [resultRetrieves, upsertedStore_lookup_ne, upsertedStore_lookup_retries, hkne'],
      by simp [resultRetrieves, upsertedStore_lookup_retries],
      by simp [getValidRetries], by simp [getValidRetries]⟩
  · exact ⟨by simp [resultRetrieves, upsertedStore_lookup_ne, upsertedStore_lookup_retries, hkne'],
      by simp [resultRetrieves, upsertedStore_lookup_retries],
      by simp [getValidRetries], by simp [getValidRetries]⟩

/-- Witness for `c8_shared_event_sample` at a concrete input. -/
theorem c8_shared_event_sample_witness :
    c8Req.cardID ≠ ""
    ∧ equalFold c8Req.operation BlockCardOperation = false
    ∧ c8Req.franchise = BrandMasterCard
    ∧ lookupStr c8Req.cardID c8Store.blockedCards = some ⟨"C8", 0, []⟩
    ∧ (DynamoBlockedCard.mk "C8" 0 []).cardID = c8Req.cardID
    ∧ resultRetrieves (processBlock (.ok ()) [10, 20, 30, 40] c8Store c8Req)
        (generateRetryKey c8Req DailyFrequency)
      = some (getValidRetries 10
          (storedRetries c8Store (generateRetryKey c8Req DailyFrequency)) DailyFrequency)
    ∧ resultRetrieves (processBlock (.ok ()) [10, 20, 30, 40] c8Store c8Req)
        (generateRetryKey c8Req MonthlyFrequency)
      = some (getValidRetries 10
          (storedRetries c8Store (generateRetryKey c8Req MonthlyFrequency)) MonthlyFrequency) := by
  have h := c8_shared_event_sample [10, 20, 30, 40] c8Store c8Req ⟨"C8", 0, []⟩
    (by decide) (by decide) rfl rfl rfl
  exact ⟨by decide, by decide, rfl, rfl, rfl, h.1, h.2.1⟩

/-- Full characterization of a Visa retry command against an existing
BlockedCard: only the monthly frequency runs, and without overflow the
command stops without touching `lastRetry`. -/
theorem visa_retry_run (clock : List Int) (s : Store) (request : BlockCardRequest)
    (card : DynamoBlockedCard)
    (hne : request.cardID ≠ "")
    (hop : equalFold request.operation BlockCardOperation = false)
    (hfr : request.franchise = BrandVisa)
    (hcard : lookupStr request.cardID s.blockedCards = some card) :
    processBlock (.ok ()) clock s request =
      (if 15 ≤ (getValidRetries (clock.headD 0) (storedRetries s (generateRetryKey request MonthlyFrequency)) MonthlyFrequency).length
       then
        .ok ({ upsertedStore s request (generateRetryKey request MonthlyFrequency) (getValidRetries (clock.headD 0) (storedRetries s (generateRetryKey request MonthlyFrequency)) MonthlyFrequency) (clock.tail.headD 0) with
            blockedCards := insertStr request.cardID { card with timeStamp := clock.tail.tail.tail.headD 0, blockedMerchants := insertStr request.merchantIdentifier ⟨clock.tail.tail.headD 0 + 86400000, TEMPORARY, 0⟩ card.blockedMerchants } s.blockedCards },
          [(MonthlyFrequency, decide (15 ≤ (getValidRetries (clock.headD 0) (storedRetries s (generateRetryKey request MonthlyFrequency)) MonthlyFrequency).length))])
       else
        .ok (upsertedStore s request (generateRetryKey request MonthlyFrequency) (getValidRetries (clock.headD 0) (storedRetries s (generateRetryKey request MonthlyFrequency)) MonthlyFrequency) (clock.tail.headD 0),
          [(MonthlyFrequency, decide (15 ≤ (getValidRetries (clock.headD 0) (storedRetries s (generateRetryKey request MonthlyFrequency)) MonthlyFrequency).length))])) := by
  have hfreq : Frequencies request.franchise = [MonthlyFrequency] := by
    rw [hfr]
    decide
  have hvfold : equalFold request.franchise BrandVisa = true := by
    rw [hfr]
    decide
  have hL15 : Limits request.franchise MonthlyFrequency = 15 := by
    rw [hfr]
    decide
  simp [processBlock, hne, hcard, processBlockLoaded, hop, sampleClock, hfreq,
    processFrequencies, processRetry_eq, hL15, getBlocked]
  split
  · simp [blockCard, sampleClock, applyMerchantEntryUpdate, UpdateBlockCardBuilder,
      upsertedStore_blockedCards, hcard, hop]
  · simp [hvfold]

/-- C3: for a retry command, each of the franchise's frequencies is marked
blocked exactly when the pruned list reaches the limit (MasterCard: 7 daily,
35 monthly; Visa: 15 monthly — the mark is literally the threshold test on
the pruned list), and when some frequency is blocked the engine writes a
TEMPORARY (≠ PERMANENT) block with `expirationDate = now + 24h` (`now` being
the command's clock reading, all samples equal here). -/
theorem c3_retry_thresholds (now : Int) (s : Store) (request : BlockCardRequest)
    (card : DynamoBlockedCard)
    (hne : request.cardID ≠ "")
    (hop : equalFold request.operation BlockCardOperation = false)
    (hcard : lookupStr request.cardID s.blockedCards = some card)
    (hccid : card.cardID = request.cardID) :
    (request.franchise = BrandMasterCard →
      resultMarks (processBlock (.ok ()) [now, now, now, now, now] s request)
        = some [(DailyFrequency, decide (7 ≤ (getValidRetries now (storedRetries s (generateRetryKey request DailyFrequency)) DailyFrequency).length)),
                (MonthlyFrequency, decide (35 ≤ (getValidRetries now (storedRetries s (generateRetryKey request MonthlyFrequency)) MonthlyFrequency).length))]
      ∧ ((7 ≤ (getValidRetries now (storedRetries s (generateRetryKey request DailyFrequency)) DailyFrequency).length
          ∨ 35 ≤ (getValidRetries now (storedRetries s (generateRetryKey request MonthlyFrequency)) MonthlyFrequency).length) →
          resultEntry (processBlock (.ok ()) [now, now, now, now, now] s request)
              request.cardID request.merchantIdentifier
            = some ⟨now + 86400000, TEMPORARY, 0⟩))
    ∧ (request.franchise = BrandVisa →
      resultMarks (processBlock (.ok ()) [now, now, now, now, now] s request)
        = some [(MonthlyFrequency, decide (15 ≤ (getValidRetries now (storedRetries s (generateRetryKey request MonthlyFrequency)) MonthlyFrequency).length))]
      ∧ (15 ≤ (getValidRetries now (storedRetries s (generateRetryKey request MonthlyFrequency)) MonthlyFrequency).length →
          resultEntry (processBlock (.ok ()) [now, now, now, now, now] s request)
              request.cardID request.merchantIdentifier
            = some ⟨now + 86400000, TEMPORARY, 0⟩))
    ∧ TEMPORARY ≠ PERMANENT := by
  refine ⟨?_, ?_, by decide⟩
  · intro hfr
    rw [mc_retry_run [now, now, now, now, now] s request card hne hop hfr hcard hccid]
    constructor
    · split
      · simp [resultMarks]
      · simp [resultMarks]
    · intro hblk
      split
      · simp [resultEntry, lookupStr_insert_self]
      · rename_i hcond
        simp only [List.headD] at hcond
        exact absurd hblk hcond
  · intro hfr
    rw [visa_retry_run [now, now, now, now, now] s request card hne hop hfr hcard]
    constructor
    · split
      · simp [resultMarks]
      · simp [resultMarks]
    · intro hblk
      split
      · simp [resultEntry, lookupStr_insert_self]
      · rename_i hcond
        simp only [List.headD] at hcond
        exact absurd hblk hcond

/-- MasterCard retry request for the C3 witness. -/
def c3wReq : BlockCardRequest := ⟨"MW", "MASTERCARD", "retry", "CW", "", ""⟩

/-- Store for the C3 witness: the daily counter already holds 7 in-window
timestamps, so the pruned list reaches the daily limit. -/
def c3wStore : Store :=
  ⟨[("CW", ⟨"CW", 0, []⟩)],
   [("CW-MW-daily", ⟨"CW", "MW", "CW-MW-daily", [99, 98, 97, 96, 95, 94, 93], 0⟩)]⟩

/-- Witness for `c3_retry_thresholds`: at `now = 100` the daily mark is true
(8 ≥ 7), the monthly mark is false (1 < 35), and the engine writes the
TEMPORARY block expiring at `now + 24h`. -/
theorem c3_retry_thresholds_witness :
    c3wReq.cardID ≠ ""
    ∧ equalFold c3wReq.operation BlockCardOperation = false
    ∧ lookupStr c3wReq.cardID c3wStore.blockedCards = some ⟨"CW", 0, []⟩
    ∧ (DynamoBlockedCard.mk "CW" 0 []).cardID = c3wReq.cardID
    ∧ resultMarks (processBlock (.ok ()) [100, 100, 100, 100, 100] c3wStore c3wReq)
        = some [(DailyFrequency, true), (MonthlyFrequency, false)]
    ∧ resultEntry (processBlock (.ok ()) [100, 100, 100, 100, 100] c3wStore c3wReq)
        c3wReq.cardID c3wReq.merchantIdentifier
      = some ⟨100 + 86400000, TEMPORARY, 0⟩ := by
  have h := (c3_retry_thresholds 100 c3wStore c3wReq ⟨"CW", 0, []⟩
    (by decide) (by decide) rfl rfl).1 rfl
  refine ⟨by decide, by decide, rfl, rfl, ?_, h.2 (by decide)⟩
  rw [h.1]
  decide

end CardControl
